import Mathlib

/-!
Verification of the periodic temperature-sampling loop in
`sensor_CC1310_LAUNCHXL_tirtos_ccs/portable/temperature.c`.

The C file's floating-point arithmetic is modelled exactly over `ℚ`, the
two `uint8_t` receive bytes as naturals reduced mod 256, the `uint16_t`
raw sample as a natural reduced mod 65536, and the C cast `(int)` as
truncation toward zero.  One iteration of the `while (1)` loop body of
`temperatureThread` becomes a pure function from the environment's
outcomes (the two `I2C_transfer` results, the received bytes, the
`sem_wait` result) and the current state to the next state plus the list
of externally visible actions it performs.
-/

namespace TemperatureThread

/-- Alert threshold in degrees Celsius: `#define HIGH_TEMP 30`. -/
def HIGH_TEMP : ℤ := 30

/-- Truncation of a rational toward zero: the semantics of the C cast
`(int)temperatureC` applied to the stored temperature. -/
def ratTrunc (q : ℚ) : ℤ := if 0 ≤ q then ⌊q⌋ else -⌊-q⌋

/-- The codec transfer function `SHT3X_CalcTemperature`:
`return 175.0f * (float)rawValue / 65535.0f - 45.0f;`. -/
def SHT3X_CalcTemperature (rawValue : ℕ) : ℚ :=
  175 * (rawValue : ℚ) / 65535 - 45

/-- The published pair of globals `temperatureC` / `temperatureF`. -/
structure Shared where
  celsius : ℚ
  fahrenheit : ℚ
  deriving DecidableEq

/-- Raw 16-bit sample assembled from the first two received bytes:
`temperature = ((rxBuffer[0] << 8) | (rxBuffer[1]));` where the buffer
holds unsigned bytes and the result lands in a `uint16_t`. -/
def rawOfBytes (b0 b1 : ℕ) : ℕ :=
  (((b0 % 256) <<< 8) ||| (b1 % 256)) % 65536

/-- The pair written inside the mutex-guarded critical section:
`temperatureC = SHT3X_CalcTemperature(temperature);`
`temperatureF = temperatureC * 9 / 5 + 32;`. -/
def decode (raw : ℕ) : Shared :=
  { celsius := SHT3X_CalcTemperature raw
    fahrenheit := SHT3X_CalcTemperature raw * 9 / 5 + 32 }

/-- The alert decision `(int)temperatureC >= HIGH_TEMP`; `true` drives
`sendAlert` (LED on), `false` drives `clearAlert` (LED off). -/
def alertRaised (c : ℚ) : Bool := decide (HIGH_TEMP ≤ ratTrunc c)

/-- Modelled from the spec (§3, §4.1): the codec contract
`celsius = 175.0 * raw / 65535.0 - 45.0`, `fahrenheit = celsius * 9/5 + 32`,
written independently of the source for the refinement comparison. -/
def decode_spec (raw : ℕ) : Shared :=
  { celsius := 175 * (raw : ℚ) / 65535 - 45
    fahrenheit := (175 * (raw : ℚ) / 65535 - 45) * 9 / 5 + 32 }

/-- Externally visible actions of one loop iteration. -/
inductive Ev where
  | cmdWrite
  | settleDelay
  | resRead
  | gpioWrite (alert : Bool)
  deriving DecidableEq

/-- Environment outcomes for one iteration: the command-phase and
result-phase `I2C_transfer` results, the first two bytes of `rxBuffer`
delivered by a successful result phase, and the `sem_wait` result. -/
structure CycleInput where
  cmdOk : Bool
  resOk : Bool
  rx0 : ℕ
  rx1 : ℕ
  semOk : Bool
  deriving DecidableEq

/-- Loop-visible mutable state: the shared pair and the LED level. -/
structure LoopState where
  shared : Shared
  led : Bool
  deriving DecidableEq

/-- One iteration of the `while (1)` body of `temperatureThread`, up to
but not including the `sem_wait` at its end.  The command write is
always attempted; `usleep(2000)` runs only when it succeeds; the result
read is always attempted; only a successful result phase decodes,
publishes and drives the LED. -/
def temperatureCycle (inp : CycleInput) (s : LoopState) : LoopState × List Ev :=
  let cmdEvs := if inp.cmdOk then [Ev.cmdWrite, Ev.settleDelay] else [Ev.cmdWrite]
  if inp.resOk then
    ({ shared := decode (rawOfBytes inp.rx0 inp.rx1)
       led := alertRaised (decode (rawOfBytes inp.rx0 inp.rx1)).celsius },
      cmdEvs ++ [Ev.resRead,
        Ev.gpioWrite (alertRaised (decode (rawOfBytes inp.rx0 inp.rx1)).celsius)])
  else
    (s, cmdEvs ++ [Ev.resRead])

/-- Thread phase: `running` inside the loop, `halted` in one of the
`while (1);` dead loops. -/
inductive Phase where
  | running
  | halted
  deriving DecidableEq

/-- Full thread state. -/
structure TState where
  phase : Phase
  loop : LoopState
  deriving DecidableEq

/-- One full loop iteration including the trailing
`retc = sem_wait(&semTimer); if (retc == -1) { while (1); }`:
a failed wait moves the thread to `halted`.  A halted thread performs
no actions and never changes state. -/
def temperatureThreadStep (inp : CycleInput) (st : TState) : TState × List Ev :=
  match st.phase with
  | .halted => (st, [])
  | .running =>
    if inp.semOk then
      ({ phase := .running, loop := (temperatureCycle inp st.loop).1 },
        (temperatureCycle inp st.loop).2)
    else
      ({ phase := .halted, loop := (temperatureCycle inp st.loop).1 },
        (temperatureCycle inp st.loop).2)

/-- Iterated thread steps, collecting all emitted actions. -/
def runCycles (st : TState) : List CycleInput → TState × List Ev
  | [] => (st, [])
  | inp :: rest =>
    ((runCycles (temperatureThreadStep inp st).1 rest).1,
      (temperatureThreadStep inp st).2 ++
        (runCycles (temperatureThreadStep inp st).1 rest).2)

/-- Initial value of the shared pair: C zero-initialised globals. -/
def initShared : Shared := { celsius := 0, fahrenheit := 0 }

/-- Thread entry: the LED is configured to its idle (off) level, then
`I2C_open` and `setupTimer` run; failure of either
(`i2c == NULL` / `retc != 0`) reaches a `while (1);` dead loop before
the sampling loop is ever entered. -/
def temperatureThreadInit (openOk timerOk : Bool) : TState :=
  { phase := if openOk && timerOk then .running else .halted
    loop := { shared := initShared, led := false } }

/-- Truncation toward zero dominates 30 exactly when the rational itself
does: the key fact behind the inclusive threshold comparison. -/
theorem ratTrunc_ge_thirty_iff (q : ℚ) : 30 ≤ ratTrunc q ↔ (30 : ℚ) ≤ q := by
  unfold ratTrunc
  by_cases h : 0 ≤ q
  · rw [if_pos h, Int.le_floor]
    norm_num
  · rw [if_neg h]
    push_neg at h
    constructor
    · intro hle
      exfalso
      have h1 : 0 ≤ ⌊-q⌋ := Int.floor_nonneg.mpr (by linarith)
      omega
    · intro hle
      linarith

/-- The alert decision agrees with the untruncated comparison. -/
theorem alertRaised_iff (c : ℚ) : alertRaised c = true ↔ (30 : ℚ) ≤ c := by
  unfold alertRaised HIGH_TEMP
  rw [decide_eq_true_iff]
  exact ratTrunc_ge_thirty_iff c

/-- A halted thread absorbs every input without acting. -/
theorem runCycles_halted (st : TState) (h : st.phase = .halted)
    (inps : List CycleInput) : runCycles st inps = (st, []) := by
  induction inps with
  | nil => rfl
  | cons inp rest ih => simp [runCycles, temperatureThreadStep, h, ih]

/-- C1: the sensor codec is a pure total function over the full u16
domain: for every raw in [0, 65535] the decoded celsius equals
`175.0 * raw / 65535.0 - 45.0` (so `decode` refines the spec codec),
with the boundary values `decode 0 = -45 °C` and `decode 65535 = 130 °C`
(approximately 130.0). -/
theorem claim_C1_codec_formula (raw : ℕ) (h : raw ≤ 65535) :
    (decode raw).celsius = 175 * (raw : ℚ) / 65535 - 45 ∧
    decode raw = decode_spec raw ∧
    (decode 0).celsius = -45 ∧
    (decode 65535).celsius = 130 := by
  refine ⟨rfl, rfl, ?_, ?_⟩ <;> norm_num [decode, SHT3X_CalcTemperature]

/-- Witness for C1 at raw = 15000. -/
theorem claim_C1_codec_formula_witness :
    (15000 : ℕ) ≤ 65535 ∧
    ((decode 15000).celsius = 175 * ((15000 : ℕ) : ℚ) / 65535 - 45 ∧
      decode 15000 = decode_spec 15000 ∧
      (decode 0).celsius = -45 ∧
      (decode 65535).celsius = 130) :=
  ⟨by norm_num, claim_C1_codec_formula 15000 (by norm_num)⟩

/-- C2: after a successful cycle the published fahrenheit equals the
published celsius times 9/5 plus 32 exactly, and this affine relation is
an invariant of every cycle, successful or not (fahrenheit is never
computed independently of celsius). -/
theorem claim_C2_affine_consistency (ok1 : Bool) (b0 b1 : ℕ) (sem : Bool)
    (s : LoopState) :
    ((temperatureCycle ⟨ok1, true, b0, b1, sem⟩ s).1.shared.fahrenheit
      = (temperatureCycle ⟨ok1, true, b0, b1, sem⟩ s).1.shared.celsius * 9 / 5 + 32) ∧
    (s.shared.fahrenheit = s.shared.celsius * 9 / 5 + 32 →
      ∀ inp : CycleInput,
        (temperatureCycle inp s).1.shared.fahrenheit
          = (temperatureCycle inp s).1.shared.celsius * 9 / 5 + 32) := by
  constructor
  · simp [temperatureCycle, decode]
  · intro hs inp
    cases hr : inp.resOk <;> simp [temperatureCycle, hr, decode, hs]

/-- Witness for C2, discharging the invariant hypothesis at the pair
(0 °C, 32 °F) under a failed result phase. -/
theorem claim_C2_affine_consistency_witness :
    (temperatureCycle ⟨true, false, 0, 0, true⟩ ⟨⟨0, 32⟩, false⟩).1.shared.fahrenheit
      = (temperatureCycle ⟨true, false, 0, 0, true⟩ ⟨⟨0, 32⟩, false⟩).1.shared.celsius
          * 9 / 5 + 32 :=
  (claim_C2_affine_consistency true 0 0 true ⟨⟨0, 32⟩, false⟩).2 (by norm_num)
    ⟨true, false, 0, 0, true⟩

/-- C3: on every successful cycle the actuator is asserted iff the
decoded celsius is at least 30, the integer truncation in
`(int)temperatureC >= HIGH_TEMP` notwithstanding; celsius exactly 30.0
asserts, 30.4 asserts, 29.9 leaves the actuator idle. -/
theorem claim_C3_threshold_inclusive (ok1 : Bool) (b0 b1 : ℕ) (sem : Bool)
    (s : LoopState) :
    ((temperatureCycle ⟨ok1, true, b0, b1, sem⟩ s).1.led = true ↔
      (30 : ℚ) ≤ (temperatureCycle ⟨ok1, true, b0, b1, sem⟩ s).1.shared.celsius) ∧
    alertRaised 30 = true ∧
    alertRaised (152 / 5) = true ∧
    alertRaised (299 / 10) = false := by
  refine ⟨?_, ?_, ?_, ?_⟩
  · simp only [temperatureCycle, if_true]
    exact alertRaised_iff _
  · rw [alertRaised_iff]
  · rw [alertRaised_iff]
    norm_num
  · rw [Bool.eq_false_iff, Ne, alertRaised_iff]
    norm_num

/-- C4: a result-phase failure produces no update: shared pair and LED
are unchanged and the thread simply returns to awaiting the next tick. -/
theorem claim_C4_result_failure_no_update (ok1 : Bool) (b0 b1 : ℕ)
    (s : LoopState) :
    (temperatureCycle ⟨ok1, false, b0, b1, true⟩ s).1 = s ∧
    (temperatureThreadStep ⟨ok1, false, b0, b1, true⟩ ⟨.running, s⟩).1
      = ⟨.running, s⟩ := by
  constructor <;> simp [temperatureCycle, temperatureThreadStep]

/-- C5 as stated is false at this input: with the command phase failed
and the result phase successful, the cycle does update SharedReading
(celsius moves from its prior 0 to the decoded value). -/
theorem claim_C5_counterexample :
    (temperatureCycle ⟨false, true, 0x3A, 0x98, true⟩ ⟨initShared, false⟩).1.shared.celsius
      ≠ initShared.celsius := by
  have hr : rawOfBytes 0x3A 0x98 = 15000 := by decide
  simp only [temperatureCycle, if_true, hr]
  norm_num [decode, SHT3X_CalcTemperature, initShared]

/-- C5 amended: the command-phase outcome is externally invisible — the
cycle's resulting state is identical whether the command phase succeeded
or failed — and the update is forgone exactly when the result phase
fails, regardless of the command phase. -/
theorem claim_C5_amended_cmd_invisible (ok1 ok1' ok2 : Bool) (b0 b1 : ℕ)
    (sem : Bool) (s : LoopState) :
    (temperatureCycle ⟨ok1, ok2, b0, b1, sem⟩ s).1
      = (temperatureCycle ⟨ok1', ok2, b0, b1, sem⟩ s).1 ∧
    (temperatureCycle ⟨ok1, false, b0, b1, sem⟩ s).1 = s := by
  cases ok2 <;> simp [temperatureCycle]

/-- C6: the 2 ms settle delay occurs iff the command phase succeeded,
and the result-phase transaction is attempted in every cycle whatever
the command phase's outcome. -/
theorem claim_C6_delay_iff_cmd_ok (ok1 ok2 sem : Bool) (b0 b1 : ℕ)
    (s : LoopState) :
    (Ev.settleDelay ∈ (temperatureCycle ⟨ok1, ok2, b0, b1, sem⟩ s).2 ↔
      ok1 = true) ∧
    Ev.resRead ∈ (temperatureCycle ⟨ok1, ok2, b0, b1, sem⟩ s).2 := by
  cases ok1 <;> cases ok2 <;> simp [temperatureCycle]

/-- C7: the codec is monotonically non-decreasing over the u16 domain. -/
theorem claim_C7_decode_monotone (a b : ℕ) (hab : a ≤ b) (hb : b ≤ 65535) :
    (decode a).celsius ≤ (decode b).celsius := by
  have h : (a : ℚ) ≤ (b : ℚ) := by exact_mod_cast hab
  simp only [decode, SHT3X_CalcTemperature]
  linarith

/-- Witness for C7 at raw values 3 and 5. -/
theorem claim_C7_decode_monotone_witness :
    (3 : ℕ) ≤ 5 ∧ (5 : ℕ) ≤ 65535 ∧ (decode 3).celsius ≤ (decode 5).celsius :=
  ⟨by norm_num, by norm_num, claim_C7_decode_monotone 3 5 (by norm_num) (by norm_num)⟩

/-- C8: bytes 0x3A, 0x98 assemble big-endian to 15000; a successful
cycle publishes celsius = 175·15000/65535 − 45 (within 0.05 of −4.92 °C)
and fahrenheit within 0.05 of 23.14 °F, and leaves the actuator idle. -/
theorem claim_C8_end_to_end (ok1 sem : Bool) (s : LoopState) :
    rawOfBytes 0x3A 0x98 = 15000 ∧
    (temperatureCycle ⟨ok1, true, 0x3A, 0x98, sem⟩ s).1.shared.celsius
      = 175 * (15000 : ℚ) / 65535 - 45 ∧
    |(temperatureCycle ⟨ok1, true, 0x3A, 0x98, sem⟩ s).1.shared.celsius
      - (-492 / 100)| < 5 / 100 ∧
    |(temperatureCycle ⟨ok1, true, 0x3A, 0x98, sem⟩ s).1.shared.fahrenheit
      - 2314 / 100| < 5 / 100 ∧
    (temperatureCycle ⟨ok1, true, 0x3A, 0x98, sem⟩ s).1.led = false := by
  have hr : rawOfBytes 0x3A 0x98 = 15000 := by decide
  have hcel : (decode 15000).celsius = -21605 / 4369 := by
    norm_num [decode, SHT3X_CalcTemperature]
  have hfah : (decode 15000).fahrenheit = 100919 / 4369 := by
    norm_num [decode, SHT3X_CalcTemperature]
  have hled : alertRaised (decode 15000).celsius = false := by
    rw [Bool.eq_false_iff, Ne, alertRaised_iff, hcel]
    norm_num
  simp only [temperatureCycle, if_true, hr]
  refine ⟨trivial, ?_, ?_, ?_, hled⟩
  · rw [hcel]
    norm_num
  · rw [hcel, abs_sub_lt_iff]
    norm_num
  · rw [hfah, abs_sub_lt_iff]
    norm_num

/-- C9: if `I2C_open` returns NULL or `setupTimer` returns nonzero, the
thread halts before its first cycle: over any sequence of environment
inputs it emits no action (no bus transaction, no LED write) and its
state stays at the halted initial state, shared pair zero and LED idle. -/
theorem claim_C9_setup_failure_halts (openOk timerOk : Bool)
    (h : openOk = false ∨ timerOk = false) (inps : List CycleInput) :
    runCycles (temperatureThreadInit openOk timerOk) inps
      = (⟨.halted, ⟨initShared, false⟩⟩, []) := by
  have hinit : temperatureThreadInit openOk timerOk
      = ⟨.halted, ⟨initShared, false⟩⟩ := by
    rcases h with h | h <;> simp [temperatureThreadInit, h]
  rw [hinit]
  exact runCycles_halted _ rfl inps

/-- Witness for C9: bus open fails, one subsequent tick arrives. -/
theorem claim_C9_setup_failure_halts_witness :
    runCycles (temperatureThreadInit false true) [⟨true, true, 0, 0, true⟩]
      = (⟨.halted, ⟨initShared, false⟩⟩, []) :=
  claim_C9_setup_failure_halts false true (Or.inl rfl) [⟨true, true, 0, 0, true⟩]

/-- C10: a failed `sem_wait` at the end of a cycle is terminal: the
thread enters the halted phase and over any further inputs it performs
no action and never changes state again. -/
theorem claim_C10_semwait_failure_halts (ok1 ok2 : Bool) (b0 b1 : ℕ)
    (s : LoopState) (inps : List CycleInput) :
    (temperatureThreadStep ⟨ok1, ok2, b0, b1, false⟩ ⟨.running, s⟩).1.phase
      = .halted ∧
    runCycles (temperatureThreadStep ⟨ok1, ok2, b0, b1, false⟩ ⟨.running, s⟩).1 inps
      = ((temperatureThreadStep ⟨ok1, ok2, b0, b1, false⟩ ⟨.running, s⟩).1, []) := by
  have hp : (temperatureThreadStep ⟨ok1, ok2, b0, b1, false⟩ ⟨.running, s⟩).1.phase
      = .halted := by
    simp [temperatureThreadStep]
  exact ⟨hp, runCycles_halted _ hp inps⟩

end TemperatureThread
